import Mathlib

/-!
Verification of the FilmFusion watchlist-comparison core (`src/main.py`)
against its natural-language specification.

The Python code is shallowly embedded: pure fragments become Lean
functions, the scraper's mutable fields (`common_movies`,
`error_message`) become an explicit `ScraperState` threaded through
`compare_watchlists`, and page documents become an algebraic `Document`
type capturing exactly the structure the extractor inspects.
-/

namespace FilmFusion

/-- Embedding of the `MovieInfo` dataclass: `title` plus a `genres`
list defaulting to `[]`. -/
structure MovieInfo where
  title : String
  genres : List String := []
deriving DecidableEq, Repr

/-- Embedding of a `div.film-poster` element: the optional
`data-film-name` attribute, and the optional `alt` attribute of a
contained `img.image` (absent when there is no such image or it has no
`alt`).  Either attribute may be present but empty. -/
structure PosterEl where
  dataFilmName : Option String
  imgAlt : Option String
deriving DecidableEq, Repr

/-- Embedding of an `li.poster-container` element: the `div.film-poster`
it contains, if any. -/
structure Container where
  poster : Option PosterEl
deriving DecidableEq, Repr

/-- The three structural markers `_parse_movie_page` probes for the
watchlist grid, in priority order. -/
inductive GridKind where
  | posterListUl
  | filmsGridUl
  | filmsGridDiv
deriving DecidableEq, Repr

/-- Embedding of a parsed page as seen by `_parse_movie_page`: the grid
container found by the marker probe (with which marker matched and its
`li.poster-container` children), or `none` when no marker matches, and
the list of all `div.film-poster` elements in the whole document (what
the flat `find_all` scan returns). -/
structure Document where
  grid : Option (GridKind × List Container)
  allPosters : List PosterEl
deriving DecidableEq, Repr

/-- Embedding of `_extract_movie_info`: take `data-film-name` when it is
a non-empty string, else the image `alt` text; return a record only when
the chosen title is non-empty, else drop the element.  Python's
`if not film_title` treats both `None` and `""` as missing. -/
def extract_movie_info (p : PosterEl) : Option MovieInfo :=
  let film_title : Option String :=
    match p.dataFilmName with
    | some s => if s.isEmpty then p.imgAlt else some s
    | none => p.imgAlt
  match film_title with
  | some s => if s.isEmpty then none else some { title := s }
  | none => none

/-- Embedding of `_parse_movie_page`: when a grid container was found,
walk its `li.poster-container` children, take each one's
`div.film-poster` if present and extract from it; when no grid marker
matched, extract from every `div.film-poster` in the document. -/
def parse_movie_page (doc : Document) : List MovieInfo :=
  match doc.grid with
  | some (_, items) => items.filterMap (fun c => c.poster.bind extract_movie_info)
  | none => doc.allPosters.filterMap extract_movie_info

/-- Embedding of Python's `str.isdigit()` as used on link labels:
non-empty and all characters digits. -/
def isdigit (s : String) : Bool := !s.data.isEmpty && s.data.all Char.isDigit

/-- Embedding of Python's `int(s)` on a string that passed `isdigit`. -/
def parse_digits (s : String) : Nat :=
  s.data.foldl (fun n c => n * 10 + (c.toNat - 48)) 0

/-- The `int(a.text) for a in pagination.find_all('a') if a.text.isdigit()`
generator: the integers among the labels, in order. -/
def int_labels (labels : List String) : List Nat :=
  labels.filterMap (fun s => if isdigit s then some (parse_digits s) else none)

/-- Embedding of the `last_page` computation in `get_user_watchlist`:
the first page's pagination control, when present, is the list of the
text labels of its `a` elements; `last_page` is the maximum of the
labels that parse as integers (`isdigit`), defaulting to 1 when the
control is absent or no label parses (Python's `max(gen, default=1)`). -/
def last_page (pagination : Option (List String)) : Nat :=
  match pagination with
  | none => 1
  | some labels =>
    match int_labels labels with
    | [] => 1
    | n :: ns => ns.foldl max n

/-- Observable events of the page loop in `get_user_watchlist`: a
`progress_callback(progress, username)` invocation, and the fetch of one
watchlist page. -/
inductive Event where
  | progress (pct : ℚ) (user : String)
  | fetchPage (n : Nat)
deriving DecidableEq, Repr

/-- The percentage passed to the callback for 0-based loop index `i`:
`(page_num + 1) / last_page * 100`. -/
def progress_pct (lastPage : Nat) (i : Nat) : ℚ :=
  (i + 1 : ℚ) / (lastPage : ℚ) * 100

/-- Embedding of the page loop of `get_user_watchlist` as its event
trace: for each `page_num in range(last_page)` the loop first invokes
the progress callback, then fetches page `page_num + 1`. -/
def page_loop_trace (username : String) (lastPage : Nat) : List Event :=
  (List.range lastPage).flatMap (fun i =>
    [Event.progress (progress_pct lastPage i) username, Event.fetchPage (i + 1)])

/-- `occurs_after tr e1 e2` holds when some occurrence of `e2` comes
strictly after some occurrence of `e1` in the trace `tr`. -/
def occurs_after (tr : List Event) (e1 e2 : Event) : Bool :=
  match tr with
  | [] => false
  | e :: rest => (e == e1 && rest.contains e2) || occurs_after rest e1 e2

/-- Embedding of the classification step at the end of
`get_user_watchlist` (lines 144-148): an empty accumulated watchlist
raises `ValueError("No movies found for user: ...")`, which the
enclosing handler turns into the retrieval error path; a non-empty one
is returned as the success value. -/
def classify_watchlist (username : String) (acc : List MovieInfo) :
    Except String (List MovieInfo) :=
  if acc.isEmpty then .error ("No movies found for user: " ++ username)
  else .ok acc

/-- The title sequence of a watchlist. -/
def titles (l : List MovieInfo) : List String := l.map MovieInfo.title

/-- The mutable scraper fields that `compare_watchlists` touches,
initialized in `LetterboxdScraper.__init__`: `self.common_movies` and
`self.error_message`. -/
structure ScraperState where
  common_movies : List MovieInfo
  error_message : String
deriving DecidableEq, Repr

/-- The scraper state as `__init__` leaves it. -/
def initState : ScraperState := { common_movies := [], error_message := "" }

/-- The `statistics` sub-dictionary built by `_calculate_statistics`. -/
structure Statistics where
  overlap_percentage : ℚ
  total_unique_movies : Nat
deriving DecidableEq, Repr

/-- The dictionary `compare_watchlists` returns: the success shape with
all count fields and statistics, or the error shape carrying
`message == "user_not_found"` and an empty `common_movies` list. -/
inductive ComparisonResult where
  | success (common_movies : List MovieInfo)
      (user1_total user2_total common_total : Nat) (statistics : Statistics)
  | error (message : String) (common_movies : List MovieInfo)
deriving DecidableEq, Repr

/-- The `common_movies` entry of either result shape. -/
def ComparisonResult.commonMovies : ComparisonResult → List MovieInfo
  | .success cm _ _ _ _ => cm
  | .error _ cm => cm

/-- Embedding of `_calculate_statistics`: note that it reads
`self.common_movies` from the scraper state, not a parameter. -/
def calculate_statistics (st : ScraperState) (list1 list2 : List MovieInfo) :
    Statistics :=
  { overlap_percentage :=
      (st.common_movies.length : ℚ) / (min list1.length list2.length : ℚ) * 100
    total_unique_movies := (titles (list1 ++ list2)).dedup.length }

/-- Embedding of `compare_watchlists`, lines 166-201, from the point
where the two retrievals have produced their lists.  `get_user_watchlist`
returns `[]` exactly when retrieval failed (a non-empty result is
guaranteed otherwise, see `classify_watchlist`), so a failed retrieval
on either side manifests as an empty input list here: the `ValueError`
raised for it is caught and mapped to the `user_not_found` error
dictionary, leaving `self.common_movies` untouched.  On the success
path the computed common list is stored into `self.common_movies`
before `_calculate_statistics` reads it. -/
def compare_watchlists (st : ScraperState)
    (user1_watchlist user2_watchlist : List MovieInfo) :
    ScraperState × ComparisonResult :=
  if user1_watchlist.isEmpty || user2_watchlist.isEmpty then
    (st, .error "user_not_found" [])
  else
    let common_titles := titles user1_watchlist ∩ titles user2_watchlist
    let common := user1_watchlist.filter (fun m => m.title ∈ common_titles)
    let st' := { st with common_movies := common }
    (st', .success common user1_watchlist.length user2_watchlist.length
      common.length (calculate_statistics st' user1_watchlist user2_watchlist))

/-- The spec's worked example: watchlist A. -/
def exampleA : List MovieInfo :=
  [{ title := "Inception" }, { title := "Arrival" }, { title := "Dune" }]

/-- The spec's worked example: watchlist B. -/
def exampleB : List MovieInfo :=
  [{ title := "Dune" }, { title := "Arrival" }, { title := "Whiplash" }]

/-! ### Helper lemmas -/

theorem foldl_max_mem (ns : List Nat) (n : Nat) : ns.foldl max n ∈ n :: ns := by
  induction ns generalizing n with
  | nil => simp
  | cons a t ih =>
    have h := ih (max n a)
    rw [List.foldl_cons]
    rcases List.mem_cons.mp h with h | h
    · rw [h]
      rcases max_choice n a with h' | h' <;> simp [h']
    · simp [List.mem_cons.mpr (Or.inr h)]

theorem init_le_foldl_max (ns : List Nat) (n : Nat) : n ≤ ns.foldl max n := by
  induction ns generalizing n with
  | nil => exact Nat.le_refl n
  | cons a t ih =>
    rw [List.foldl_cons]
    exact le_trans (le_max_left n a) (ih (max n a))

theorem le_foldl_max (ns : List Nat) (n m : Nat) (hm : m ∈ n :: ns) :
    m ≤ ns.foldl max n := by
  induction ns generalizing n with
  | nil =>
    rw [List.mem_singleton] at hm
    simp [hm]
  | cons a t ih =>
    rw [List.foldl_cons]
    rcases List.mem_cons.mp hm with h | h
    · subst h
      exact le_trans (le_max_left m a) (init_le_foldl_max t (max m a))
    · rcases List.mem_cons.mp h with h | h
      · subst h
        exact le_trans (le_max_right n m) (init_le_foldl_max t (max n m))
      · exact ih (max n a) (List.mem_cons.mpr (Or.inr h))

theorem flatMap_pair_length {α β : Type} (g h : α → β) (l : List α) :
    (l.flatMap (fun i => [g i, h i])).length = 2 * l.length := by
  induction l with
  | nil => rfl
  | cons a t ih =>
    simp only [List.flatMap_cons, List.cons_append, List.nil_append,
      List.length_cons, ih]
    omega

theorem flatMap_pair_getElem_even {α β : Type} (g h : α → β) :
    ∀ (l : List α) (k : Nat),
      (l.flatMap (fun i => [g i, h i]))[2 * k]? = (l[k]?).map g := by
  intro l
  induction l with
  | nil => intro k; simp
  | cons a t ih =>
    intro k
    cases k with
    | zero => simp
    | succ k' =>
      have h2 : 2 * (k' + 1) = 2 * k' + 1 + 1 := by omega
      simp only [List.flatMap_cons, List.cons_append, List.nil_append, h2,
        List.getElem?_cons_succ]
      exact ih k'

theorem flatMap_pair_getElem_odd {α β : Type} (g h : α → β) :
    ∀ (l : List α) (k : Nat),
      (l.flatMap (fun i => [g i, h i]))[2 * k + 1]? = (l[k]?).map h := by
  intro l
  induction l with
  | nil => intro k; simp
  | cons a t ih =>
    intro k
    cases k with
    | zero => simp
    | succ k' =>
      have h2 : 2 * (k' + 1) + 1 = 2 * k' + 1 + 1 + 1 := by omega
      simp only [List.flatMap_cons, List.cons_append, List.nil_append, h2,
        List.getElem?_cons_succ]
      exact ih k'

/-! ### Claims -/

/-- C4: for every first page, `last_page` is the maximum integer found
among the pagination control's link labels, and it is 1 when no
pagination control exists or none of the labels parse as integers
(non-integer labels are simply ignored by the generator's `isdigit`
filter). -/
theorem claim_C4_last_page :
    last_page none = 1 ∧
    (∀ labels, int_labels labels = [] → last_page (some labels) = 1) ∧
    (∀ labels, int_labels labels ≠ [] →
      last_page (some labels) ∈ int_labels labels ∧
      ∀ n ∈ int_labels labels, n ≤ last_page (some labels)) := by
  refine ⟨rfl, ?_, ?_⟩
  · intro labels h
    simp [last_page, h]
  · intro labels h
    cases hl : int_labels labels with
    | nil => exact absurd hl h
    | cons n ns =>
      have hlp : last_page (some labels) = ns.foldl max n := by
        simp [last_page, hl]
      refine ⟨?_, ?_⟩
      · rw [hlp]
        exact foldl_max_mem ns n
      · intro m hm
        rw [hlp]
        exact le_foldl_max ns n m hm

/-- Witness for C4 at the spec's example: labels `{1, 2, 3, "…"}` give a
last page that is one of the parsed integers and an upper bound of them
(namely 3), and an absent pagination control gives 1. -/
theorem claim_C4_last_page_witness :
    (last_page (some ["1", "2", "3", "…"]) ∈ int_labels ["1", "2", "3", "…"] ∧
      ∀ n ∈ int_labels ["1", "2", "3", "…"], n ≤ last_page (some ["1", "2", "3", "…"])) ∧
    last_page none = 1 :=
  ⟨claim_C4_last_page.2.2 ["1", "2", "3", "…"] (by decide), claim_C4_last_page.1⟩

/-- C6: a retrieval that completes pagination with zero accumulated
movies is classified as an error (the `ValueError` raised at line 145,
i.e. the empty-watchlist error kind), never as a success carrying an
empty list: every `ok` outcome of the classification step is
non-empty. -/
theorem claim_C6_empty_classification :
    (∀ username, classify_watchlist username [] =
      Except.error ("No movies found for user: " ++ username)) ∧
    (∀ username acc movies,
      classify_watchlist username acc = Except.ok movies → movies ≠ []) := by
  constructor
  · intro u
    rfl
  · intro u acc movies h
    by_cases hacc : acc.isEmpty
    · simp [classify_watchlist, hacc] at h
    · simp [classify_watchlist, hacc] at h
      subst h
      simpa using hacc

/-- Witness for C6: the concrete empty retrieval for user `alice` is the
error outcome, and a concrete successful outcome is non-empty. -/
theorem claim_C6_empty_classification_witness :
    classify_watchlist "alice" [] =
      Except.error ("No movies found for user: " ++ "alice") ∧
    ([{ title := "Dune" }] : List MovieInfo) ≠ [] :=
  ⟨claim_C6_empty_classification.1 "alice",
   claim_C6_empty_classification.2 "alice" [{ title := "Dune" }] [{ title := "Dune" }] rfl⟩

/-- C7: when either retrieval failed (i.e. `get_user_watchlist`
returned its failure value `[]`), `compare_watchlists` returns the
error dictionary with `message == "user_not_found"` and an empty
`common_movies` list, without reaching the comparison code: the state
(including `self.common_movies`) is left untouched and the result is a
typed value, never an exception. -/
theorem claim_C7_retrieval_failure (st : ScraperState)
    (u1 u2 : List MovieInfo) (h : u1 = [] ∨ u2 = []) :
    (compare_watchlists st u1 u2).2 = .error "user_not_found" [] ∧
    (compare_watchlists st u1 u2).2.commonMovies = [] ∧
    (compare_watchlists st u1 u2).1 = st := by
  have hcond : (u1.isEmpty || u2.isEmpty) = true := by
    rcases h with h | h <;> simp [h]
  simp [compare_watchlists, hcond, ComparisonResult.commonMovies]

/-- Witness for C7: a failed first retrieval against a non-empty second
watchlist yields the `user_not_found` error result. -/
theorem claim_C7_retrieval_failure_witness :
    (compare_watchlists initState [] [{ title := "Dune" }]).2 =
      .error "user_not_found" [] ∧
    (compare_watchlists initState [] [{ title := "Dune" }]).2.commonMovies = [] ∧
    (compare_watchlists initState [] [{ title := "Dune" }]).1 = initState :=
  claim_C7_retrieval_failure initState [] [{ title := "Dune" }] (Or.inl rfl)

/-- C9: extraction is layout-resilient: a document whose grid was found
under any of the three structural markers yields the same movies as the
same grid under any other marker, and the same movies as a document with
no grid marker at all whose flat poster scan sees exactly the grid's
posters. -/
theorem claim_C9_layout_resilience :
    (∀ k k' items ps ps',
      parse_movie_page { grid := some (k, items), allPosters := ps } =
        parse_movie_page { grid := some (k', items), allPosters := ps' }) ∧
    (∀ k items ps,
      parse_movie_page { grid := some (k, items), allPosters := ps } =
        parse_movie_page
          { grid := none, allPosters := items.filterMap Container.poster }) := by
  constructor
  · intro k k' items ps ps'
    rfl
  · intro k items ps
    simp [parse_movie_page, List.filterMap_filterMap]

/-- C10: every `MovieInfo` produced by extraction has a non-empty title
and an empty genres list; an element on which neither the `data-film-name`
attribute nor the image `alt` text yields a (non-empty) title is
dropped; hence every record a parsed page hands onward carries
`genres == []` and a non-empty title. -/
theorem claim_C10_record_shape :
    (∀ p m, extract_movie_info p = some m → m.title ≠ "" ∧ m.genres = []) ∧
    (∀ p : PosterEl, (p.dataFilmName.getD "") = "" → (p.imgAlt.getD "") = "" →
      extract_movie_info p = none) ∧
    (∀ doc m, m ∈ parse_movie_page doc → m.title ≠ "" ∧ m.genres = []) := by
  have h1 : ∀ p m, extract_movie_info p = some m → m.title ≠ "" ∧ m.genres = [] := by
    intro p m h
    obtain ⟨d, a⟩ := p
    have halt : ∀ s : String, (match (some s : Option String) with
        | some s => if s.isEmpty then none else some ({ title := s } : MovieInfo)
        | none => none) = some m → m.title ≠ "" ∧ m.genres = [] := by
      intro s hs
      by_cases he : s.isEmpty
      · simp [he] at hs
      · simp [he] at hs
        subst hs
        exact ⟨by simpa [String.isEmpty_iff] using he, rfl⟩
    cases d with
    | none =>
      cases a with
      | none => simp [extract_movie_info] at h
      | some s => exact halt s h
    | some s =>
      by_cases hs : s.isEmpty
      · cases a with
        | none => simp [extract_movie_info, hs] at h
        | some t =>
          simp only [extract_movie_info, hs, if_true] at h
          exact halt t h
      · simp only [extract_movie_info, hs, if_false] at h
        exact halt s h
  refine ⟨h1, ?_, ?_⟩
  · intro p hd ha
    obtain ⟨d, a⟩ := p
    cases d with
    | none =>
      cases a with
      | none => rfl
      | some s =>
        simp at ha
        simp [extract_movie_info, ha, String.isEmpty_iff]
    | some s =>
      simp at hd
      cases a with
      | none => simp [extract_movie_info, hd, String.isEmpty_iff]
      | some t =>
        simp at ha
        simp [extract_movie_info, hd, ha, String.isEmpty_iff]
  · intro doc m hm
    unfold parse_movie_page at hm
    cases hg : doc.grid with
    | none =>
      rw [hg] at hm
      obtain ⟨p, _, hp⟩ := List.mem_filterMap.mp hm
      exact h1 p m hp
    | some g =>
      rw [hg] at hm
      obtain ⟨c, _, hc⟩ := List.mem_filterMap.mp hm
      obtain ⟨p, _, hp⟩ := Option.bind_eq_some.mp hc
      exact h1 p m hp

/-- Witness for C10: a poster with `data-film-name = "Dune"` extracts to
a record with non-empty title and empty genres, and a poster whose two
title sources are an empty attribute and a missing image is dropped. -/
theorem claim_C10_record_shape_witness :
    (({ title := "Dune" } : MovieInfo).title ≠ "" ∧
      ({ title := "Dune" } : MovieInfo).genres = []) ∧
    extract_movie_info { dataFilmName := some "", imgAlt := none } = none :=
  ⟨claim_C10_record_shape.1 { dataFilmName := some "Dune", imgAlt := none }
      { title := "Dune" } rfl,
   claim_C10_record_shape.2.1 { dataFilmName := some "", imgAlt := none } rfl rfl⟩

/-- C1: for non-empty watchlists A and B, the `common_movies` list of
the comparison is exactly the filter of A keeping every record whose
title occurs in B (duplicates included, A's order preserved): it is a
sublist of A, and every title in it appears in both A and B. -/
theorem claim_C1_common_movies (st : ScraperState) (A B : List MovieInfo)
    (hA : A ≠ []) (hB : B ≠ []) :
    ((compare_watchlists st A B).2).commonMovies =
      A.filter (fun m => m.title ∈ titles B) ∧
    List.Sublist ((compare_watchlists st A B).2).commonMovies A ∧
    ∀ m ∈ ((compare_watchlists st A B).2).commonMovies,
      m.title ∈ titles A ∧ m.title ∈ titles B := by
  have hcond : (A.isEmpty || B.isEmpty) = false := by
    simp [List.isEmpty_iff, hA, hB]
  have hcm : ((compare_watchlists st A B).2).commonMovies =
      A.filter (fun m => m.title ∈ titles A ∩ titles B) := by
    simp [compare_watchlists, hcond, ComparisonResult.commonMovies]
  have heq : A.filter (fun m => m.title ∈ titles A ∩ titles B) =
      A.filter (fun m => m.title ∈ titles B) := by
    apply List.filter_congr
    intro m hm
    have hmA : m.title ∈ titles A := List.mem_map_of_mem MovieInfo.title hm
    simp [List.mem_inter_iff, hmA]
  refine ⟨hcm.trans heq, ?_, ?_⟩
  · rw [hcm.trans heq]
    exact List.filter_sublist A
  · intro m hm
    rw [hcm] at hm
    have hmem := List.mem_filter.mp hm
    have h2 := of_decide_eq_true hmem.2
    exact ⟨List.mem_map_of_mem MovieInfo.title hmem.1,
      (List.mem_inter_iff.mp h2).2⟩

/-- Witness for C1 at the spec's example: the common movies of A and B
are exactly A filtered to the titles of B, i.e. `[Arrival, Dune]`. -/
theorem claim_C1_common_movies_witness :
    ((compare_watchlists initState exampleA exampleB).2).commonMovies =
      exampleA.filter (fun m => m.title ∈ titles exampleB) :=
  (claim_C1_common_movies initState exampleA exampleB (by decide) (by decide)).1

/-- C2: in every successful comparison result, the `common_total` field
equals the length of the `common_movies` field. -/
theorem claim_C2_common_total (st : ScraperState) (A B cm : List MovieInfo)
    (u1t u2t ct : Nat) (stats : Statistics)
    (h : (compare_watchlists st A B).2 = .success cm u1t u2t ct stats) :
    ct = cm.length := by
  by_cases hcond : (A.isEmpty || B.isEmpty) = true
  · simp [compare_watchlists, hcond] at h
  · rw [Bool.not_eq_true] at hcond
    simp [compare_watchlists, hcond] at h
    rcases h with ⟨hcm, _, _, hct, _⟩
    rw [← hct, ← hcm]

/-- C3: for non-empty watchlists, the statistics of a successful
comparison satisfy `overlap_percentage = common_total / min(user1_total,
user2_total) * 100` and `total_unique_movies` is the cardinality of the
union of the two title sets. -/
theorem claim_C3_statistics (st : ScraperState) (A B cm : List MovieInfo)
    (u1t u2t ct : Nat) (stats : Statistics)
    (hA : A ≠ []) (hB : B ≠ [])
    (h : (compare_watchlists st A B).2 = .success cm u1t u2t ct stats) :
    stats.overlap_percentage = (ct : ℚ) / ((min u1t u2t : Nat) : ℚ) * 100 ∧
    stats.total_unique_movies =
      ((titles A).toFinset ∪ (titles B).toFinset).card := by
  have hcond : (A.isEmpty || B.isEmpty) = false := by
    simp [List.isEmpty_iff, hA, hB]
  simp [compare_watchlists, hcond, calculate_statistics] at h
  rcases h with ⟨hcm, hu1, hu2, hct, hst⟩
  subst hst
  subst hu1
  subst hu2
  subst hct
  constructor
  · dsimp only
    rw [Nat.cast_min]
  · dsimp only
    simp only [titles, List.map_append]
    rw [← List.toFinset_append, List.card_toFinset]

/-- Witness for C2 at a concrete successful comparison. -/
theorem claim_C2_common_total_witness :
    1 = ([{ title := "Dune" }] : List MovieInfo).length :=
  claim_C2_common_total initState [{ title := "Dune" }] [{ title := "Dune" }]
    [{ title := "Dune" }] 1 1 1 { overlap_percentage := 100, total_unique_movies := 1 }
    (by norm_num [compare_watchlists, calculate_statistics, titles])

/-- Witness for C3 at the same concrete successful comparison. -/
theorem claim_C3_statistics_witness :
    ({ overlap_percentage := 100, total_unique_movies := 1 } :
        Statistics).overlap_percentage = ((1 : Nat) : ℚ) / ((min 1 1 : Nat) : ℚ) * 100 ∧
    ({ overlap_percentage := 100, total_unique_movies := 1 } :
        Statistics).total_unique_movies =
      ((titles [{ title := "Dune" }]).toFinset ∪
        (titles [{ title := "Dune" }]).toFinset).card :=
  claim_C3_statistics initState [{ title := "Dune" }] [{ title := "Dune" }]
    [{ title := "Dune" }] 1 1 1 { overlap_percentage := 100, total_unique_movies := 1 }
    (by decide) (by decide)
    (by norm_num [compare_watchlists, calculate_statistics, titles])

/-- C8 counterexample: the engine does store mutable comparison state: a
successful comparison overwrites the scraper's `common_movies` field, so
the claim that no "last computed common movies" field is kept between
calls fails on this concrete run (the field changes from `[]` to the
computed common list). -/
theorem claim_C8_state_counterexample :
    (compare_watchlists initState [{ title := "Dune" }]
        [{ title := "Dune" }]).1.common_movies ≠ initState.common_movies := by
  decide

/-- C8 amended: the comparison outcome is a pure function of the two
watchlists — two runs on the same pair of inputs return equal results
whatever scraper state earlier comparisons left behind — but the engine
does store the last computed common movies in the scraper's mutable
`common_movies` field: after a successful comparison that field holds
exactly the returned `common_movies`. -/
theorem claim_C8_determinism :
    (∀ s1 s2 : ScraperState, ∀ A B : List MovieInfo,
      (compare_watchlists s1 A B).2 = (compare_watchlists s2 A B).2) ∧
    (∀ s : ScraperState, ∀ A B : List MovieInfo, A ≠ [] → B ≠ [] →
      (compare_watchlists s A B).1.common_movies =
        ((compare_watchlists s A B).2).commonMovies) := by
  constructor
  · intro s1 s2 A B
    by_cases hcond : (A.isEmpty || B.isEmpty) = true
    · simp [compare_watchlists, hcond]
    · rw [Bool.not_eq_true] at hcond
      simp [compare_watchlists, hcond, calculate_statistics]
  · intro s A B hA hB
    have hcond : (A.isEmpty || B.isEmpty) = false := by
      simp [List.isEmpty_iff, hA, hB]
    simp [compare_watchlists, hcond, ComparisonResult.commonMovies]

/-- Witness for C8: determinism at concrete states differing in their
stored `common_movies`, and the stored field equals the returned common
list for a concrete successful comparison. -/
theorem claim_C8_determinism_witness :
    (compare_watchlists initState exampleA exampleB).2 =
      (compare_watchlists { common_movies := exampleA, error_message := "x" }
        exampleA exampleB).2 ∧
    (compare_watchlists initState exampleA exampleB).1.common_movies =
      ((compare_watchlists initState exampleA exampleB).2).commonMovies :=
  ⟨claim_C8_determinism.1 initState
      { common_movies := exampleA, error_message := "x" } exampleA exampleB,
   claim_C8_determinism.2 initState exampleA exampleB (by decide) (by decide)⟩

/-- C5 counterexample: on a single-page retrieval for user `"u"`, the
loop's trace is a progress call followed by the fetch of page 1 — the
progress call is not invoked after the page, contrary to the claim: no
progress event occurs after the page's fetch. -/
theorem claim_C5_after_counterexample :
    page_loop_trace "u" 1 = [Event.progress 100 "u", Event.fetchPage 1] ∧
    occurs_after (page_loop_trace "u" 1) (Event.fetchPage 1)
      (Event.progress 100 "u") = false := by
  constructor
  · norm_num [page_loop_trace, progress_pct, List.range_succ]
  · decide

/-- C5 (amended): for an N-page retrieval the callback is invoked
exactly once per page — immediately before that page's fetch, not after
it — with `percentComplete = pageIndex / lastPage * 100`; the successive
percentages are strictly increasing, and the Nth (final) call reports
exactly 100. -/
theorem claim_C5_progress_trace (u : String) (N : Nat) (hN : 1 ≤ N) :
    (page_loop_trace u N).length = 2 * N ∧
    (∀ i, i < N →
      (page_loop_trace u N)[2 * i]? = some (Event.progress (progress_pct N i) u) ∧
      (page_loop_trace u N)[2 * i + 1]? = some (Event.fetchPage (i + 1))) ∧
    ((List.range N).map (progress_pct N)).Pairwise (· < ·) ∧
    progress_pct N (N - 1) = 100 := by
  have hN0 : (N : ℚ) ≠ 0 := Nat.cast_ne_zero.mpr (by omega)
  have hNpos : (0 : ℚ) < N := by
    have h0 : 0 < N := hN
    exact_mod_cast h0
  refine ⟨?_, ?_, ?_, ?_⟩
  · rw [page_loop_trace, flatMap_pair_length, List.length_range]
  · intro i hi
    constructor
    · rw [page_loop_trace, flatMap_pair_getElem_even, List.getElem?_range hi]
      rfl
    · rw [page_loop_trace, flatMap_pair_getElem_odd, List.getElem?_range hi]
      rfl
  · refine List.Pairwise.map _ ?_ (List.pairwise_lt_range N)
    intro a b hab
    unfold progress_pct
    have hcast : (a : ℚ) + 1 < (b : ℚ) + 1 := by exact_mod_cast Nat.succ_lt_succ hab
    exact mul_lt_mul_of_pos_right ((div_lt_div_iff_of_pos_right hNpos).mpr hcast)
      (by norm_num)
  · unfold progress_pct
    have h1 : ((N - 1 : ℕ) : ℚ) + 1 = (N : ℚ) := by
      rw [Nat.cast_sub hN]
      push_cast
      ring
    rw [h1, div_self hN0, one_mul]

/-- Witness for C5 (amended) on a two-page retrieval: trace length 4,
the second page's progress call sits immediately before its fetch, and
the final percentage is exactly 100. -/
theorem claim_C5_progress_trace_witness :
    (page_loop_trace "u" 2).length = 2 * 2 ∧
    (page_loop_trace "u" 2)[2 * 1]? = some (Event.progress (progress_pct 2 1) "u") ∧
    (page_loop_trace "u" 2)[2 * 1 + 1]? = some (Event.fetchPage (1 + 1)) ∧
    progress_pct 2 (2 - 1) = 100 :=
  ⟨(claim_C5_progress_trace "u" 2 (by norm_num)).1,
   ((claim_C5_progress_trace "u" 2 (by norm_num)).2.1 1 (by norm_num)).1,
   ((claim_C5_progress_trace "u" 2 (by norm_num)).2.1 1 (by norm_num)).2,
   (claim_C5_progress_trace "u" 2 (by norm_num)).2.2.2⟩

end FilmFusion
